import Mathlib

/-!
Verification development for a bounded asyncio connection pool and
transaction manager for SQLite (single module `aiosqlation.py` plus its
test suite).  The Python module is shallowly embedded: each method body
is translated into a Lean function over explicit state, awaits on the
idle queue become explicit suspension outcomes, and the cooperative
interleaving of pool operations is modelled by a small-step transition
relation on a system state that carries the pool together with the
checked-out handles, suspended waiters and the close-drain progress.

Python name and attribute resolution is modelled explicitly where the
module's own bindings decide behaviour: the module's global namespace
and the pool's class namespace are embedded as lookup tables, and the
bare names `time`, `OperationalError`, `async_sleep` and
`transaction_type`, and the attribute names `aquire_connection` and
`release_connection`, are resolved against them (all unbound, as the
theorems establish).  The one disclosed exception is `PoolClosed` at
line 131: the class is absent from the module, and the raise site is
modelled as the error the spec's taxonomy names for it.
-/

/-- A database handle (class `Connection`, `aiosqlation.py` line 59).
The driver side (`aiosqlite.Connection`) is an external collaborator,
so a handle is modelled by its identity and the list of SQL statements
that have been executed on it, in order. -/
structure Connection where
  id : Nat
  executed : List String
deriving DecidableEq

/-- `connection.execute(sql)` on the driver side: record the statement. -/
def Connection.execute (c : Connection) (sql : String) : Connection :=
  { c with executed := c.executed ++ [sql] }

/-- The opaque driver capability used by `create_connection`: opening a
new handle (`await Connection(self._connector, ...)`, line 124) and
executing a statement on it (lines 125-126).  Either await may fail
with a driver error message. -/
structure Driver where
  newConn : Nat → Except String Connection
  run : Connection → String → Except String Connection

/-- The driver on the happy path: every open and every statement
succeeds, and executed statements are recorded on the handle. -/
def goodDriver : Driver :=
  { newConn := fun i => Except.ok ⟨i, []⟩
    run := fun c sql => Except.ok (c.execute sql) }

/-- Errors a pool operation can raise: `PoolClosed` (raised at line
131), `asyncio.QueueFull` (possible in principle from `put_nowait`,
line 139), and a propagated driver error from handle creation. -/
inductive PoolErr
  | poolClosed
  | queueFull
  | driver (msg : String)
deriving DecidableEq

/-- State of a `ConnectionPool` (lines 91-162): `maxsize` is
`self._queue.maxsize`, `queue` the idle FIFO queue (front = next item
`get` returns), `size` the `self._size` counter, `closed` the
`self._closed` flag.  `nextId` is a ghost counter supplying fresh
handle identities. -/
structure ConnectionPool where
  maxsize : Nat
  queue : List Connection
  size : Nat
  closed : Bool
  nextId : Nat
deriving DecidableEq

/-- `pool.available` property (lines 112-114): `self._queue.qsize()`. -/
def ConnectionPool.available (p : ConnectionPool) : Nat :=
  p.queue.length

/-- A fresh pool as built by `__init__` (lines 92-102): empty idle
queue, `size = 0`, not closed. -/
def ConnectionPool.init (maxsize : Nat) : ConnectionPool :=
  ⟨maxsize, [], 0, false, 0⟩

/-- `create_connection` (lines 122-127): increment `self._size`, then
open the handle and configure it by executing the two PRAGMA
statements; the increment happens before any of the three awaits, so
it survives a failure of any of them.  Returns the outcome of the
handle creation together with the updated pool state. -/
def create_connection (drv : Driver) (p : ConnectionPool) :
    Except String Connection × ConnectionPool :=
  let p1 := { p with size := p.size + 1, nextId := p.nextId + 1 }
  let r : Except String Connection := do
    let c ← drv.newConn p.nextId
    let c ← drv.run c "PRAGMA journal_mode=WAL"
    drv.run c "PRAGMA busy_timeout=0"
  (r, p1)

/-- Possible outcomes of one `acquire_connection` call: a handle is
returned immediately, an error is raised, or the call suspends on
`await self._queue.get()` with the queue empty. -/
inductive AcquireResult
  | conn (c : Connection) (p : ConnectionPool)
  | error (e : PoolErr) (p : ConnectionPool)
  | suspended (p : ConnectionPool)
deriving DecidableEq

/-- `acquire_connection` (lines 129-136): raise `PoolClosed` if the
pool is closed; create a new handle if the idle queue is empty and
`size < maxsize`; otherwise `get` from the queue — immediately when it
is non-empty, suspending when it is empty. -/
def acquire_connection (drv : Driver) (p : ConnectionPool) : AcquireResult :=
  if p.closed then AcquireResult.error PoolErr.poolClosed p
  else if p.queue = [] ∧ p.size < p.maxsize then
    match create_connection drv p with
    | (Except.ok c, p1) => AcquireResult.conn c p1
    | (Except.error e, p1) => AcquireResult.error (PoolErr.driver e) p1
  else
    match p.queue with
    | c :: rest => AcquireResult.conn c { p with queue := rest }
    | [] => AcquireResult.suspended p

/-- `return_connection` (lines 138-139): `self._queue.put_nowait`,
which never suspends — it either enqueues at the back or raises
`QueueFull` when a bounded queue is already full. -/
def return_connection (p : ConnectionPool) (c : Connection) :
    Except PoolErr ConnectionPool :=
  if 0 < p.maxsize ∧ p.maxsize ≤ p.queue.length then Except.error PoolErr.queueFull
  else Except.ok { p with queue := p.queue ++ [c] }

/-- The synchronous prefix of `close` (lines 147-156): a second call
returns immediately (`none`); the first call sets `self._closed` at
once and schedules exactly `self._size` queue `get`s to drain. -/
def close_entry (p : ConnectionPool) : Option (ConnectionPool × Nat) :=
  if p.closed then none
  else some ({ p with closed := true }, p.size)

/-!
Python name and attribute resolution.  Several statements in the
module reference names that resolve nowhere: CPython compiles a bare
name that is never assigned in the enclosing function as a global
load, looked up in the module namespace and then in builtins, raising
`NameError` on failure; an attribute access on an object whose class
does not define the attribute raises `AttributeError`.  The tables
below embed the module's global namespace and the pool's class
namespace as they stand after `aiosqlation.py` executes.
-/

/-- A Python exception raised by name or attribute resolution. -/
inductive PyExc
  | nameError (name : String)
  | attributeError (attr : String)
deriving DecidableEq

/-- The module's global namespace: the four imports (lines 1-4) and
the class statements `Transaction` (lines 6 and 54, one binding),
`Connection` (line 59), `ConnectionWaiter` (line 72) and
`ConnectionPool` (line 91), plus `__all__` (line 164).  No other
module-level assignment exists. -/
def moduleGlobals : List String :=
  ["aiosqlite", "asyncio", "functools", "sqlite3",
   "Transaction", "Connection", "ConnectionWaiter", "ConnectionPool", "__all__"]

/-- Of the bare names this module's function bodies load, those that
exist in the builtins namespace: `TimeoutError` (line 37),
`isinstance` and `bytes` (line 93), `str` (line 96) and `range`
(line 156).  `time`, `OperationalError`, `async_sleep`,
`transaction_type` and `PoolClosed` are not builtins. -/
def relevantBuiltins : List String :=
  ["TimeoutError", "isinstance", "bytes", "str", "range"]

/-- Global load of a bare name: module namespace, then builtins. -/
def resolvesName (n : String) : Bool :=
  moduleGlobals.contains n || relevantBuiltins.contains n

/-- Evaluating a bare global name: `NameError` when it is unbound. -/
def loadName (n : String) : Except PyExc Unit :=
  if resolvesName n then Except.ok () else Except.error (PyExc.nameError n)

/-- The attribute names the `ConnectionPool` class body defines
(lines 91-162). -/
def connectionPoolAttrs : List String :=
  ["__init__", "maxsize", "size", "available", "__aenter__", "__aexit__",
   "create_connection", "acquire_connection", "return_connection",
   "connect", "transaction", "close"]

/-- Attribute lookup on a pool instance: `AttributeError` when the
class defines no such attribute. -/
def poolAttrLookup (n : String) : Except PyExc Unit :=
  if connectionPoolAttrs.contains n then Except.ok ()
  else Except.error (PyExc.attributeError n)

/-- The checkout convenience wrapper `ConnectionWaiter`
(lines 72-89). -/
structure ConnectionWaiter where
  pool : ConnectionPool
deriving DecidableEq

/-- `pool.connect()` (lines 141-142): wrap the pool in a waiter. -/
def ConnectionPool.connect (p : ConnectionPool) : ConnectionWaiter :=
  ⟨p⟩

/-- Outcome of `ConnectionWaiter.__aenter__`: a Python exception
raised after the handle was already acquired (the handle stays
checked out and, the entry having raised, `__aexit__` will not run),
a returned handle, a pool error, or suspension inside the acquire. -/
inductive WaiterEnter
  | raised (e : PyExc) (leaked : Connection) (p : ConnectionPool)
  | entered (c : Connection) (p : ConnectionPool)
  | error (e : PoolErr) (p : ConnectionPool)
  | suspended (p : ConnectionPool)
deriving DecidableEq

/-- `ConnectionWaiter.__aenter__` (lines 81-86): acquire a handle from
the pool, then evaluate `if transaction_type is None:` (line 83).
`transaction_type` is never assigned in the function body, so CPython
compiles it as a global load; were it bound, both branches return
`self.connection`.  It is unbound, so after a successful acquisition
the entry raises `NameError`. -/
def ConnectionWaiter.aenter (drv : Driver) (w : ConnectionWaiter) : WaiterEnter :=
  match acquire_connection drv w.pool with
  | AcquireResult.conn c p1 =>
    match loadName "transaction_type" with
    | Except.ok _ => WaiterEnter.entered c p1
    | Except.error e => WaiterEnter.raised e c p1
  | AcquireResult.error e p1 => WaiterEnter.error e p1
  | AcquireResult.suspended p1 => WaiterEnter.suspended p1

/-- `ConnectionWaiter.__await__` (lines 78-79): delegates to
`__aenter__`, so awaiting the waiter and entering its scope behave
identically. -/
def ConnectionWaiter.await_ (drv : Driver) (w : ConnectionWaiter) : WaiterEnter :=
  ConnectionWaiter.aenter drv w

/-- `ConnectionWaiter.__aexit__` (lines 88-89): unconditionally return
the handle to the pool (`self.pool.return_connection`, a method the
pool does define). -/
def ConnectionWaiter.aexit (p : ConnectionPool) (c : Connection) :
    Except PoolErr ConnectionPool :=
  return_connection p c

/-- Outcome of the whole `async with pool.connect() as connection:`
scope. -/
inductive WaiterScope
  | completed (p : ConnectionPool)
  | exitRaised (e : PoolErr) (p : ConnectionPool)
  | enterRaised (e : PyExc) (leaked : Connection) (p : ConnectionPool)
  | enterError (e : PoolErr) (p : ConnectionPool)
  | enterSuspended (p : ConnectionPool)
deriving DecidableEq

/-- The scoped acquisition: enter, run the body, exit — except that,
per the `async with` protocol, a raising `__aenter__` skips both the
body and `__aexit__`, leaving the acquired handle checked out. -/
def waiter_scope (drv : Driver) (w : ConnectionWaiter) : WaiterScope :=
  match ConnectionWaiter.aenter drv w with
  | WaiterEnter.entered c p1 =>
    match ConnectionWaiter.aexit p1 c with
    | Except.ok p2 => WaiterScope.completed p2
    | Except.error e => WaiterScope.exitRaised e p1
  | WaiterEnter.raised e c p1 => WaiterScope.enterRaised e c p1
  | WaiterEnter.error e p1 => WaiterScope.enterError e p1
  | WaiterEnter.suspended p1 => WaiterScope.enterSuspended p1

/- Reduction lemmas for the pool operations. -/

theorem create_connection_good (p : ConnectionPool) :
    create_connection goodDriver p
      = (Except.ok ⟨p.nextId, ["PRAGMA journal_mode=WAL", "PRAGMA busy_timeout=0"]⟩,
         { p with size := p.size + 1, nextId := p.nextId + 1 }) := rfl

theorem acquire_closed (drv : Driver) (p : ConnectionPool) (h : p.closed = true) :
    acquire_connection drv p = AcquireResult.error PoolErr.poolClosed p := by
  simp [acquire_connection, h]

theorem acquire_create (p : ConnectionPool) (h1 : p.closed = false)
    (h2 : p.queue = []) (h3 : p.size < p.maxsize) :
    acquire_connection goodDriver p
      = AcquireResult.conn
          ⟨p.nextId, ["PRAGMA journal_mode=WAL", "PRAGMA busy_timeout=0"]⟩
          { p with size := p.size + 1, nextId := p.nextId + 1 } := by
  simp [acquire_connection, h1, h2, h3, create_connection_good]

theorem acquire_dequeue (drv : Driver) (p : ConnectionPool) (c : Connection)
    (rest : List Connection) (h1 : p.closed = false) (h2 : p.queue = c :: rest) :
    acquire_connection drv p = AcquireResult.conn c { p with queue := rest } := by
  simp [acquire_connection, h1, h2]

theorem acquire_suspends (drv : Driver) (p : ConnectionPool) (h1 : p.closed = false)
    (h2 : p.queue = []) (h3 : ¬ p.size < p.maxsize) :
    acquire_connection drv p = AcquireResult.suspended p := by
  simp [acquire_connection, h1, h2, h3]

/-- Inversion: the ways `acquire_connection` (with the happy-path
driver) can hand out a handle — the create path or the dequeue path. -/
theorem acquire_conn_cases (p : ConnectionPool) (c : Connection) (p1 : ConnectionPool)
    (h : acquire_connection goodDriver p = AcquireResult.conn c p1) :
    p.closed = false ∧
    ((p.queue = [] ∧ p.size < p.maxsize ∧
        c = ⟨p.nextId, ["PRAGMA journal_mode=WAL", "PRAGMA busy_timeout=0"]⟩ ∧
        p1 = { p with size := p.size + 1, nextId := p.nextId + 1 }) ∨
     (∃ rest, p.queue = c :: rest ∧ p1 = { p with queue := rest })) := by
  by_cases hc : p.closed
  · rw [acquire_closed goodDriver p hc] at h
    exact absurd h (by simp)
  · have hc0 : p.closed = false := by simpa using hc
    refine ⟨hc0, ?_⟩
    by_cases hq : p.queue = [] ∧ p.size < p.maxsize
    · left
      rw [acquire_create p hc0 hq.1 hq.2] at h
      cases h
      exact ⟨hq.1, hq.2, rfl, rfl⟩
    · right
      cases hql : p.queue with
      | nil =>
        have h3 : ¬ p.size < p.maxsize := fun hlt => hq ⟨hql, hlt⟩
        rw [acquire_suspends goodDriver p hc0 hql h3] at h
        exact absurd h (by simp)
      | cons c0 rest =>
        rw [acquire_dequeue goodDriver p c0 rest hc0 hql] at h
        cases h
        exact ⟨rest, hql ▸ rfl, rfl⟩

theorem return_connection_ok (p : ConnectionPool) (c : Connection)
    (h : p.queue.length < p.maxsize) :
    return_connection p c = Except.ok { p with queue := p.queue ++ [c] } := by
  have : ¬ (0 < p.maxsize ∧ p.maxsize ≤ p.queue.length) := by omega
  simp [return_connection, this]

/-!
Cooperative small-step semantics.  A system state carries the pool
together with the handles currently checked out, the number of
`acquire_connection` calls suspended on `queue.get`, and the progress
of a running `close` (its `self._size` pending drain `get`s, lines
156-162).  `created` and `destroyed` are ghost counters of handles
opened and of handles closed by the drain loop.
-/

/-- Progress of `close` (lines 147-162): not yet called; called and
still awaiting `pending` of its drain `get`s; or completed (after
`self._size = 0` at line 162). -/
inductive ClosePhase
  | notStarted
  | draining (pending : Nat)
  | done
deriving DecidableEq

/-- Whole-system state for the cooperative interleaving semantics. -/
structure Sys where
  pool : ConnectionPool
  checkedOut : List Connection
  waiters : Nat
  phase : ClosePhase
  created : Nat
  destroyed : Nat
deriving DecidableEq

/-- A freshly constructed pool with no callers. -/
def Sys.init (maxsize : Nat) : Sys :=
  ⟨ConnectionPool.init maxsize, [], 0, ClosePhase.notStarted, 0, 0⟩

/-- One atomic step of the system between suspension points: the
synchronous part of an `acquire_connection` call that returns a handle
or suspends, a suspended waiter being handed the queue front, a
`return_connection` call, the synchronous prefix of `close`, one drain
`get` completing (the drained handle is closed, i.e. destroyed), and
the final `self._size = 0` once all drains are done. -/
inductive Step : Sys → Sys → Prop
  | acquireConn (s : Sys) (c : Connection) (p1 : ConnectionPool)
      (h : acquire_connection goodDriver s.pool = AcquireResult.conn c p1) :
      Step s { s with pool := p1,
                      checkedOut := (c :: s.checkedOut),
                      created := (if s.pool.queue = [] then s.created + 1 else s.created) }
  | acquireWait (s : Sys)
      (h : acquire_connection goodDriver s.pool = AcquireResult.suspended s.pool) :
      Step s { s with waiters := s.waiters + 1 }
  | wakeWaiter (s : Sys) (c : Connection) (rest : List Connection)
      (hw : 0 < s.waiters) (hq : s.pool.queue = c :: rest) :
      Step s { s with pool := { s.pool with queue := rest },
                      checkedOut := (c :: s.checkedOut),
                      waiters := s.waiters - 1 }
  | release (s : Sys) (c : Connection) (p1 : ConnectionPool)
      (hc : c ∈ s.checkedOut)
      (h : return_connection s.pool c = Except.ok p1) :
      Step s { s with pool := p1, checkedOut := s.checkedOut.erase c }
  | closeStart (s : Sys) (p1 : ConnectionPool) (n : Nat)
      (h : close_entry s.pool = some (p1, n)) :
      Step s { s with pool := p1, phase := ClosePhase.draining n }
  | closeNoop (s : Sys) (h : close_entry s.pool = none) :
      Step s s
  | closeDrain (s : Sys) (k : Nat) (c : Connection) (rest : List Connection)
      (hp : s.phase = ClosePhase.draining (k + 1)) (hq : s.pool.queue = c :: rest) :
      Step s { s with pool := { s.pool with queue := rest },
                      phase := ClosePhase.draining k,
                      destroyed := s.destroyed + 1 }
  | closeFinish (s : Sys) (hp : s.phase = ClosePhase.draining 0) :
      Step s { s with pool := { s.pool with size := 0 }, phase := ClosePhase.done }

/-- Reachability from a state by any sequence of steps. -/
def Reaches (a b : Sys) : Prop :=
  Relation.ReflTransGen Step a b

/-- The global bookkeeping invariant: every handle ever created is
idle, checked out, or destroyed; no more than `maxsize` handles are
ever created; the `closed` flag tracks the close phase; `self._size`
equals the created count until `close` resets it to 0; and the drain
loop has exactly the not-yet-destroyed handles left to collect. -/
def SysInv (s : Sys) : Prop :=
  s.pool.queue.length + s.checkedOut.length + s.destroyed = s.created
  ∧ s.created ≤ s.pool.maxsize
  ∧ (s.pool.closed = false ↔ s.phase = ClosePhase.notStarted)
  ∧ (s.phase = ClosePhase.notStarted → s.destroyed = 0 ∧ s.pool.size = s.created)
  ∧ (∀ k, s.phase = ClosePhase.draining k → k + s.destroyed = s.created ∧ s.pool.size = s.created)
  ∧ (s.phase = ClosePhase.done → s.destroyed = s.created ∧ s.pool.size = 0)

theorem Inv_init (maxsize : Nat) : SysInv (Sys.init maxsize) := by
  refine ⟨rfl, Nat.zero_le _, by simp [Sys.init, ConnectionPool.init], ?_, ?_, ?_⟩
  · intro _; exact ⟨rfl, rfl⟩
  · intro k hk; exact absurd hk (by simp [Sys.init])
  · intro hk; exact absurd hk (by simp [Sys.init])

theorem Inv_step {s t : Sys} (hinv : SysInv s) (hstep : Step s t) : SysInv t := by
  obtain ⟨hcount, hmax, hflag, hns, hdr, hdone⟩ := hinv
  cases hstep with
  | acquireConn c p1 h =>
    obtain ⟨hc0, hcase⟩ := acquire_conn_cases _ _ _ h
    have hphase : s.phase = ClosePhase.notStarted := hflag.mp hc0
    obtain ⟨hd0, hsz⟩ := hns hphase
    rcases hcase with ⟨hq, hlt, _, hp1⟩ | ⟨rest, hq, hp1⟩
    · subst hp1
      refine ⟨?_, ?_, ?_, ?_, ?_, ?_⟩
      · simp only [hq]
        simp [hq] at hcount
        simp [List.length_cons]
        omega
      · simp [hq]; omega
      · simpa [hphase] using hflag
      · intro _; simp [hq]; omega
      · intro k hk; rw [hphase] at hk; exact absurd hk (by simp)
      · intro hk; rw [hphase] at hk; exact absurd hk (by simp)
    · subst hp1
      have hqlen : s.pool.queue.length = rest.length + 1 := by rw [hq]; rfl
      have hqne : ¬ s.pool.queue = [] := by rw [hq]; simp
      refine ⟨?_, ?_, ?_, ?_, ?_, ?_⟩
      · simp [hqne, List.length_cons]; omega
      · simpa [hqne] using hmax
      · simpa [hphase] using hflag
      · intro _; constructor
        · exact hd0
        · simp [hqne]; omega
      · intro k hk; rw [hphase] at hk; exact absurd hk (by simp)
      · intro hk; rw [hphase] at hk; exact absurd hk (by simp)
  | acquireWait h =>
    exact ⟨hcount, hmax, hflag, hns, hdr, hdone⟩
  | wakeWaiter c rest hw hq =>
    have hqlen : s.pool.queue.length = rest.length + 1 := by rw [hq]; rfl
    refine ⟨?_, hmax, hflag, ?_, ?_, ?_⟩
    · simp [List.length_cons]; omega
    · intro hk; exact hns hk
    · intro k hk; exact hdr k hk
    · intro hk; exact hdone hk
  | release c p1 hc h =>
    have hco : 0 < s.checkedOut.length := List.length_pos.mpr (List.ne_nil_of_mem hc)
    have herase : (s.checkedOut.erase c).length = s.checkedOut.length - 1 :=
      List.length_erase_of_mem hc
    have hok : p1 = { s.pool with queue := s.pool.queue ++ [c] } := by
      by_cases hfull : 0 < s.pool.maxsize ∧ s.pool.maxsize ≤ s.pool.queue.length
      · simp [return_connection, hfull] at h
      · simp [return_connection, hfull] at h
        exact h.symm
    subst hok
    refine ⟨?_, hmax, hflag, ?_, ?_, ?_⟩
    · simp [herase, List.length_append]; omega
    · intro hk; exact hns hk
    · intro k hk; exact hdr k hk
    · intro hk; exact hdone hk
  | closeStart p1 n h =>
    have hc0 : s.pool.closed = false := by
      by_cases hcl : s.pool.closed
      · simp [close_entry, hcl] at h
      · simpa using hcl
    have hentry : p1 = { s.pool with closed := true } ∧ n = s.pool.size := by
      simp [close_entry, hc0] at h
      exact ⟨h.1.symm, h.2.symm⟩
    obtain ⟨hp1, hn⟩ := hentry
    subst hp1; subst hn
    have hphase := hflag.mp hc0
    obtain ⟨hd0, hsz⟩ := hns hphase
    refine ⟨hcount, hmax, by simp, by simp, ?_, by simp⟩
    intro k hk
    simp at hk
    subst hk
    refine ⟨?_, hsz⟩
    show s.pool.size + s.destroyed = s.created
    omega
  | closeNoop h =>
    exact ⟨hcount, hmax, hflag, hns, hdr, hdone⟩
  | closeDrain k c rest hp hq =>
    have hqlen : s.pool.queue.length = rest.length + 1 := by rw [hq]; rfl
    obtain ⟨hkd, hsz⟩ := hdr (k + 1) hp
    have hclosed : s.pool.closed = true := by
      by_cases hcl : s.pool.closed
      · simpa using hcl
      · have := hflag.mp (by simpa using hcl)
        rw [this] at hp
        exact absurd hp (by simp)
    refine ⟨?_, hmax, by simp [hclosed], by simp, ?_, by simp⟩
    · show rest.length + s.checkedOut.length + (s.destroyed + 1) = s.created
      omega
    · intro k2 hk2
      simp at hk2
      subst hk2
      refine ⟨?_, hsz⟩
      show k + (s.destroyed + 1) = s.created
      omega
  | closeFinish hp =>
    obtain ⟨hkd, hsz⟩ := hdr 0 hp
    have hclosed : s.pool.closed = true := by
      by_cases hcl : s.pool.closed
      · simpa using hcl
      · have := hflag.mp (by simpa using hcl)
        rw [this] at hp
        exact absurd hp (by simp)
    refine ⟨by simpa using hcount, by simpa using hmax, by simp [hclosed], by simp, by simp, ?_⟩
    intro _
    refine ⟨?_, rfl⟩
    show s.destroyed = s.created
    omega

theorem Reaches_inv {maxsize : Nat} {s : Sys}
    (h : Reaches (Sys.init maxsize) s) : SysInv s := by
  induction h with
  | refl => exact Inv_init maxsize
  | tail _ hstep ih => exact Inv_step ih hstep

/-!
The transaction manager: the first `class Transaction` (lines 6-52).
Its scope-entry and scope-exit bodies reference several names that do
not resolve, so they are embedded statement by statement through the
resolution tables above, not as the retry protocol the spec describes.
-/

/-- `Transaction.__aenter__` (lines 14-42): the body's first statement
is `start_time = time()` (line 15), a global load of the bare name
`time`.  `loop` stands for the `while True` loop of lines 17-42, which
would receive the clock reading were the name bound; the theorem
quantifies over it, since — the name being unbound — that loop is dead
code. -/
def tx_aenter (loop : ℚ → Except PyExc Connection) (clock : ℚ) :
    Except PyExc Connection :=
  match loadName "time" with
  | Except.ok _ => loop clock
  | Except.error e => Except.error e

/-- Line 20, `self._connection = await self._db.aquire_connection()`:
an attribute lookup of `aquire_connection` (note the missing `c`) on
the pool, whose class defines `acquire_connection`. -/
def tx_acquire_stmt : Except PyExc Unit :=
  poolAttrLookup "aquire_connection"

/-- Line 36, `self._db.release_connection(self._connection)` on the
timeout path: the pool's class defines `return_connection`, not
`release_connection`, so this lookup raises, and the
`raise TimeoutError() from None` at line 37 sits behind it. -/
def tx_release_stmt : Except PyExc Unit :=
  poolAttrLookup "release_connection"

/-- Actions performed by `Transaction.__aexit__` (lines 44-52):
whether COMMIT was issued, whether ROLLBACK was issued, whether the
handle was returned to the pool, and whether the exit suppresses the
in-flight exception (returning `None`, which is falsy, it never
does). -/
structure ExitActions where
  committed : Bool
  rolledBack : Bool
  released : Bool
  suppress : Bool
deriving DecidableEq

/-- `Transaction.__aexit__` (lines 44-52): commit or roll back when
the handle reports an open transaction, choosing by `exc is None`
(lines 45-49); then, when this transaction owns the checkout, evaluate
`self._db.release_connection(self._connection)` (line 52) — an
attribute lookup on the pool that fails, raising after the
commit/rollback already happened and before any release.  Returns the
actions performed together with the exception the exit itself raised,
if any. -/
def tx_aexit (in_tx : Bool) (exc : Option String) (owns : Bool) :
    ExitActions × Option PyExc :=
  let a : ExitActions := ⟨false, false, false, false⟩
  let a :=
    if in_tx then
      (if exc = none then { a with committed := true } else { a with rolledBack := true })
    else a
  if owns then
    match poolAttrLookup "release_connection" with
    | Except.ok _ => ({ a with released := true }, none)
    | Except.error e => (a, some e)
  else (a, none)

/-- The `async with` protocol around the scope body: when `__aexit__`
itself raises, its exception propagates in place of the body's (the
body's failure is masked); when it returns `None` (falsy, so never
suppressing), the body's exception is rethrown unchanged. -/
def tx_scope_exit (in_tx : Bool) (owns : Bool) (exc : Option String) :
    ExitActions × Except PyExc (Option String) :=
  match tx_aexit in_tx exc owns with
  | (a, some e) => (a, Except.error e)
  | (a, none) => (a, if a.suppress then Except.ok none else Except.ok exc)

/-!
Module-level name binding: the module contains two `class Transaction`
statements (lines 6 and 54).  Python executes class statements in
order, each rebinding the module-level name, so the later definition
wins.  Calling a class whose `__init__` (inherited `object.__init__`
for the second one) does not accept the supplied number of positional
arguments raises `TypeError`.
-/

/-- The two class statements named `Transaction`, in source order. -/
inductive TransactionClass
  | withProtocol
  | constantsOnly
deriving DecidableEq

/-- Sequential module execution: each `class Transaction` statement
rebinds the name, so the binding after the module body ran is the last
assignment. -/
def bindingAfter (assignments : List TransactionClass) : Option TransactionClass :=
  assignments.getLast?

/-- The two assignments to the module-level name `Transaction`. -/
def moduleTransactionAssignments : List TransactionClass :=
  [TransactionClass.withProtocol, TransactionClass.constantsOnly]

/-- What the name `Transaction` refers to once `aiosqlation.py` has
been imported. -/
def moduleTransaction : Option TransactionClass :=
  bindingAfter moduleTransactionAssignments

/-- Number of positional arguments (beyond `self`) accepted by each
class's `__init__`: the first defines
`__init__(self, db, connection, type, timeout)` with no defaults
(line 7); the second defines none, inheriting `object.__init__`, which
accepts no extra arguments. -/
def initArity : TransactionClass → Nat
  | TransactionClass.withProtocol => 4
  | TransactionClass.constantsOnly => 0

/-- Class attributes defined by each class body: the second holds
exactly the three isolation-kind constants (lines 55-57). -/
def classConstants : TransactionClass → List (String × String)
  | TransactionClass.withProtocol => []
  | TransactionClass.constantsOnly =>
    [("DEFERRED", "DEFERRED"), ("IMMEDIATE", "IMMEDIATE"), ("EXCLUSIVE", "EXCLUSIVE")]

/-- Outcome of calling a class with a number of positional
arguments. -/
inductive CallResult
  | inst (cls : TransactionClass)
  | typeError
deriving DecidableEq

/-- Python constructor call: a mismatch between supplied and accepted
positional arguments raises `TypeError`. -/
def callClass (cls : TransactionClass) (nargs : Nat) : CallResult :=
  if nargs = initArity cls then CallResult.inst cls else CallResult.typeError

/-- A call `Transaction(a, b)` through the module-level name, as every
`Connection` method performs: `Connection.transaction` (line 61),
`Connection.deferred` (line 64), `Connection.immediate` (line 67) and
`Connection.exclusive` (line 70) each pass exactly two positional
arguments. -/
def connectionTransactionCall : CallResult :=
  match moduleTransaction with
  | some cls => callClass cls 2
  | none => CallResult.typeError

/-- `Connection.transaction` (lines 60-61): `Transaction(self, transaction_type)`. -/
def Connection_transaction : CallResult :=
  match moduleTransaction with
  | some cls => callClass cls 2
  | none => CallResult.typeError

/-- `Connection.deferred` (lines 63-64): `Transaction(self, Transaction.DEFERRED)`. -/
def Connection_deferred : CallResult :=
  Connection_transaction

/-- `Connection.immediate` (lines 66-67): `Transaction(self, Transaction.IMMEDIATE)`. -/
def Connection_immediate : CallResult :=
  Connection_transaction

/-- `Connection.exclusive` (lines 69-70): `Transaction(self, Transaction.EXCLUSIVE)`. -/
def Connection_exclusive : CallResult :=
  Connection_transaction

/-- Whether a class body defines the scope-entry and scope-exit
methods `__aenter__`/`__aexit__`. -/
def definesScopeProtocol : TransactionClass → Bool
  | TransactionClass.withProtocol => true
  | TransactionClass.constantsOnly => false

/- Concrete pools and a concrete handle used by the witnesses. -/

def wConn : Connection :=
  ⟨0, ["PRAGMA journal_mode=WAL", "PRAGMA busy_timeout=0"]⟩

def wPoolFresh : ConnectionPool := ⟨2, [], 0, false, 0⟩

def wPoolIdle : ConnectionPool := ⟨2, [wConn], 2, false, 1⟩

def wPoolBusy : ConnectionPool := ⟨1, [], 1, false, 1⟩

def wPoolClosed : ConnectionPool := ⟨2, [wConn], 1, true, 1⟩

/-- A driver whose connection opening fails. -/
def badDriver : Driver :=
  { newConn := fun _ => Except.error "unable to open database file"
    run := fun c sql => Except.ok (c.execute sql) }

/-- C2: on a non-closed pool, acquire creates a new handle exactly when
the idle queue is empty and `size < maxsize` — incrementing `size`,
configuring the handle with WAL journaling and busy-timeout 0, and
returning it with the idle queue untouched (still empty, so the new
handle never enters it); otherwise it dequeues the queue front when
one is present and suspends on the empty queue otherwise. -/
theorem C2_acquire_policy :
    (∀ p : ConnectionPool, p.closed = false → p.queue = [] → p.size < p.maxsize →
       acquire_connection goodDriver p
         = AcquireResult.conn
             ⟨p.nextId, ["PRAGMA journal_mode=WAL", "PRAGMA busy_timeout=0"]⟩
             { p with size := p.size + 1, nextId := p.nextId + 1 })
    ∧ (∀ (drv : Driver) (p : ConnectionPool) (c : Connection) (rest : List Connection),
         p.closed = false → p.queue = c :: rest →
         acquire_connection drv p = AcquireResult.conn c { p with queue := rest })
    ∧ (∀ (drv : Driver) (p : ConnectionPool), p.closed = false → p.queue = [] →
         ¬ p.size < p.maxsize → acquire_connection drv p = AcquireResult.suspended p) :=
  ⟨acquire_create, acquire_dequeue, acquire_suspends⟩

theorem C2_acquire_policy_witness :
    acquire_connection goodDriver wPoolFresh
      = AcquireResult.conn wConn ⟨2, [], 1, false, 1⟩
    ∧ acquire_connection goodDriver wPoolIdle
      = AcquireResult.conn wConn ⟨2, [], 2, false, 1⟩
    ∧ acquire_connection goodDriver wPoolBusy = AcquireResult.suspended wPoolBusy :=
  ⟨C2_acquire_policy.1 wPoolFresh rfl rfl (by decide),
   C2_acquire_policy.2.1 goodDriver wPoolIdle wConn [] rfl rfl,
   C2_acquire_policy.2.2 goodDriver wPoolBusy rfl rfl (by decide)⟩

/-- C3: once the pool is closed, every acquire call raises the
pool-closed error and leaves the pool exactly as it was — it neither
creates a handle nor dequeues or waits on the idle queue, even when
idle handles remain. -/
theorem C3_acquire_after_close (drv : Driver) (p : ConnectionPool)
    (h : p.closed = true) :
    acquire_connection drv p = AcquireResult.error PoolErr.poolClosed p :=
  acquire_closed drv p h

theorem C3_acquire_after_close_witness :
    acquire_connection goodDriver wPoolClosed
      = AcquireResult.error PoolErr.poolClosed wPoolClosed :=
  C3_acquire_after_close goodDriver wPoolClosed rfl

/-- C9: `create_connection` increments the `size` counter before the
handle is confirmed open — with any driver the updated pool has
`size = size + 1`, and when opening or configuring the handle fails
the error propagates (through `acquire_connection` as well) while the
counter stays inflated, with no compensating decrement. -/
theorem C9_size_incremented_before_open :
    (∀ (drv : Driver) (p : ConnectionPool),
       (create_connection drv p).2.size = p.size + 1)
    ∧ (∀ (drv : Driver) (p : ConnectionPool) (e : String),
         (create_connection drv p).1 = Except.error e →
         (create_connection drv p).2.size = p.size + 1
         ∧ (create_connection drv p).2.queue = p.queue)
    ∧ (∀ (drv : Driver) (p : ConnectionPool) (e : String),
         p.closed = false → p.queue = [] → p.size < p.maxsize →
         (create_connection drv p).1 = Except.error e →
         acquire_connection drv p
           = AcquireResult.error (PoolErr.driver e) (create_connection drv p).2) := by
  refine ⟨fun drv p => rfl, fun drv p e _ => ⟨rfl, rfl⟩, ?_⟩
  intro drv p e h1 h2 h3 herr
  rcases hc : create_connection drv p with ⟨r, p2⟩
  rw [hc] at herr
  simp at herr
  subst herr
  simp [acquire_connection, h1, h2, h3, hc]

theorem C9_size_incremented_before_open_witness :
    (create_connection badDriver wPoolFresh).1
        = Except.error "unable to open database file"
    ∧ (create_connection badDriver wPoolFresh).2.size = wPoolFresh.size + 1
    ∧ acquire_connection badDriver wPoolFresh
        = AcquireResult.error (PoolErr.driver "unable to open database file")
            (create_connection badDriver wPoolFresh).2 :=
  ⟨rfl,
   (C9_size_incremented_before_open.2.1 badDriver wPoolFresh
     "unable to open database file" rfl).1,
   C9_size_incremented_before_open.2.2 badDriver wPoolFresh
     "unable to open database file" rfl rfl (by decide) rfl⟩

/-- C6: code bug — the commit/rollback choice behaves as claimed
(COMMIT exactly when the handle reports an open transaction and the
body raised nothing, ROLLBACK exactly when it reports one and the body
raised, neither otherwise), and a transaction that does not own its
checkout rethrows the body's error unchanged after the cleanup; but
when the transaction owns the checkout, line 52 looks up
`release_connection` on the pool — whose class defines
`return_connection` — so `__aexit__` raises `AttributeError`: the
handle is never returned to the pool and the body's error is masked
instead of rethrown. -/
theorem C6_exit_release_error :
    (∀ (in_tx : Bool) (exc : Option String),
       tx_aexit in_tx exc false
         = (⟨in_tx && exc.isNone, in_tx && !exc.isNone, false, false⟩, none)
       ∧ tx_scope_exit in_tx false exc
         = (⟨in_tx && exc.isNone, in_tx && !exc.isNone, false, false⟩, Except.ok exc))
    ∧ (∀ (in_tx : Bool) (exc : Option String),
       tx_aexit in_tx exc true
         = (⟨in_tx && exc.isNone, in_tx && !exc.isNone, false, false⟩,
            some (PyExc.attributeError "release_connection"))
       ∧ tx_scope_exit in_tx true exc
         = (⟨in_tx && exc.isNone, in_tx && !exc.isNone, false, false⟩,
            Except.error (PyExc.attributeError "release_connection")))
    ∧ poolAttrLookup "release_connection"
        = Except.error (PyExc.attributeError "release_connection")
    ∧ "return_connection" ∈ connectionPoolAttrs := by
  have hrel : poolAttrLookup "release_connection"
      = Except.error (PyExc.attributeError "release_connection") := rfl
  refine ⟨?_, ?_, hrel, by decide⟩
  · intro in_tx exc
    cases in_tx <;> cases exc <;> simp [tx_aexit, tx_scope_exit]
  · intro in_tx exc
    cases in_tx <;> cases exc <;> simp [tx_aexit, tx_scope_exit, hrel]

/-- C10: the second `class Transaction` (lines 54-57) — holding only
the three isolation-kind constants, defining no `__init__` and no
scope protocol — shadows the first in the module namespace, so every
`Connection.transaction`/`deferred`/`immediate`/`exclusive` call,
which passes two constructor arguments, raises `TypeError`, and the
first class's begin/retry/commit machinery is unreachable through the
module-level name. -/
theorem C10_transaction_shadowed :
    moduleTransaction = some TransactionClass.constantsOnly
    ∧ moduleTransaction ≠ some TransactionClass.withProtocol
    ∧ classConstants TransactionClass.constantsOnly
        = [("DEFERRED", "DEFERRED"), ("IMMEDIATE", "IMMEDIATE"),
           ("EXCLUSIVE", "EXCLUSIVE")]
    ∧ initArity TransactionClass.constantsOnly = 0
    ∧ definesScopeProtocol TransactionClass.constantsOnly = false
    ∧ Connection_transaction = CallResult.typeError
    ∧ Connection_deferred = CallResult.typeError
    ∧ Connection_immediate = CallResult.typeError
    ∧ Connection_exclusive = CallResult.typeError := by
  refine ⟨rfl, by decide, rfl, rfl, rfl, by decide, by decide, by decide, by decide⟩

/-- C5: code bug — `Transaction.__aenter__` raises `NameError` at its
very first statement (line 15: the bare name `time` is unbound),
whatever the rest of the body would do, so no BEGIN is ever issued and
no retry, no 0.5-second sleep and no `TimeoutError` can occur; behind
that, the names the retry protocol would need are themselves broken:
`OperationalError` (line 29) and `async_sleep` (line 39) are unbound,
the line-20 acquisition misspells the pool's `acquire_connection`, and
the line-36 release misspells `return_connection` — only
`TimeoutError` (a builtin) resolves. -/
theorem C5_begin_retry_dead :
    (∀ (loop : ℚ → Except PyExc Connection) (clock : ℚ),
       tx_aenter loop clock = Except.error (PyExc.nameError "time"))
    ∧ resolvesName "time" = false
    ∧ resolvesName "OperationalError" = false
    ∧ resolvesName "async_sleep" = false
    ∧ resolvesName "TimeoutError" = true
    ∧ tx_acquire_stmt = Except.error (PyExc.attributeError "aquire_connection")
    ∧ poolAttrLookup "acquire_connection" = Except.ok ()
    ∧ tx_release_stmt = Except.error (PyExc.attributeError "release_connection")
    ∧ poolAttrLookup "return_connection" = Except.ok () := by
  refine ⟨?_, by decide, by decide, by decide, by decide, rfl, rfl, rfl, rfl⟩
  intro loop clock
  have h : resolvesName "time" = false := by decide
  simp [tx_aenter, loadName, h]

/- A concrete run used by the witnesses: on a fresh pool of capacity
2, acquire a handle, invoke close while it is still checked out,
return it, let the drain collect it, and let close finish. -/

def wSys0 : Sys := Sys.init 2

def wSys1 : Sys :=
  ⟨⟨2, [], 1, false, 1⟩, [wConn], 0, ClosePhase.notStarted, 1, 0⟩

def wSysA : Sys :=
  ⟨⟨2, [], 1, true, 1⟩, [wConn], 0, ClosePhase.draining 1, 1, 0⟩

def wSysB : Sys :=
  ⟨⟨2, [wConn], 1, true, 1⟩, [], 0, ClosePhase.draining 1, 1, 0⟩

def wSysC : Sys :=
  ⟨⟨2, [], 1, true, 1⟩, [], 0, ClosePhase.draining 0, 1, 1⟩

def wSysD : Sys :=
  ⟨⟨2, [], 0, true, 1⟩, [], 0, ClosePhase.done, 1, 1⟩

theorem step_wSys01 : Step wSys0 wSys1 :=
  Step.acquireConn wSys0 wConn ⟨2, [], 1, false, 1⟩ (by decide)

theorem step_wSys1A : Step wSys1 wSysA :=
  Step.closeStart wSys1 ⟨2, [], 1, true, 1⟩ 1 (by decide)

theorem step_wSysAB : Step wSysA wSysB :=
  Step.release wSysA wConn ⟨2, [wConn], 1, true, 1⟩ (by simp [wSysA]) rfl

theorem step_wSysBC : Step wSysB wSysC :=
  Step.closeDrain wSysB 0 wConn [] rfl rfl

theorem step_wSysCD : Step wSysC wSysD :=
  Step.closeFinish wSysC rfl

theorem reach_wSys1 : Reaches (Sys.init 2) wSys1 :=
  Relation.ReflTransGen.single step_wSys01

theorem reach_wSysD : Reaches (Sys.init 2) wSysD :=
  Relation.ReflTransGen.head step_wSys01
    (Relation.ReflTransGen.head step_wSys1A
      (Relation.ReflTransGen.head step_wSysAB
        (Relation.ReflTransGen.head step_wSysBC
          (Relation.ReflTransGen.single step_wSysCD))))

/-- C1: in every state reachable from a freshly constructed pool by
any sequence of pool operations, `0 ≤ available ≤ size ≤ maxsize`
holds, where `available` is the idle-queue length and `size` counts
the handles created and not yet destroyed. -/
theorem C1_pool_invariant (maxsize : Nat) (s : Sys)
    (h : Reaches (Sys.init maxsize) s) :
    0 ≤ s.pool.available
    ∧ s.pool.available ≤ s.created - s.destroyed
    ∧ s.created - s.destroyed ≤ s.pool.maxsize := by
  obtain ⟨hcount, hmax, -, -, -, -⟩ := Reaches_inv h
  refine ⟨Nat.zero_le _, ?_, ?_⟩
  · show s.pool.queue.length ≤ s.created - s.destroyed
    omega
  · omega

theorem C1_pool_invariant_witness :
    0 ≤ wSys1.pool.available
    ∧ wSys1.pool.available ≤ wSys1.created - wSys1.destroyed
    ∧ wSys1.created - wSys1.destroyed ≤ wSys1.pool.maxsize :=
  C1_pool_invariant 2 wSys1 reach_wSys1

/-- C4: `close` is idempotent — once the pool is closed a further call
returns immediately; the first call sets the `closed` flag at once and
schedules exactly `size` drain `get`s (waiting for outstanding
checkouts to come back); and in every reachable state where the close
has completed, `size = 0` and `available = 0` — including runs, such
as the witness trace, where a handle was still checked out at the
moment close was invoked. -/
theorem C4_close_lifecycle :
    (∀ p : ConnectionPool, p.closed = true → close_entry p = none)
    ∧ (∀ p : ConnectionPool, p.closed = false →
         close_entry p = some ({ p with closed := true }, p.size))
    ∧ (∀ (maxsize : Nat) (s : Sys), Reaches (Sys.init maxsize) s →
         s.phase = ClosePhase.done → s.pool.size = 0 ∧ s.pool.available = 0) := by
  refine ⟨?_, ?_, ?_⟩
  · intro p h
    simp [close_entry, h]
  · intro p h
    simp [close_entry, h]
  · intro maxsize s hr hdone
    obtain ⟨hcount, -, -, -, -, hd⟩ := Reaches_inv hr
    obtain ⟨hde, hsz⟩ := hd hdone
    refine ⟨hsz, ?_⟩
    show s.pool.queue.length = 0
    omega

theorem C4_close_lifecycle_witness :
    close_entry wSysD.pool = none
    ∧ close_entry wSys1.pool
        = some ({ wSys1.pool with closed := true }, wSys1.pool.size)
    ∧ (wSysD.pool.size = 0 ∧ wSysD.pool.available = 0) :=
  ⟨C4_close_lifecycle.1 wSysD.pool rfl,
   C4_close_lifecycle.2.1 wSys1.pool rfl,
   C4_close_lifecycle.2.2 2 wSysD reach_wSysD rfl⟩

/-- C7: code bug — awaiting the waiter and entering its scope do
behave identically (both delegate to `__aenter__`), but `__aenter__`
itself, after acquiring a handle from the pool, evaluates the unbound
global `transaction_type` (line 83) and raises `NameError`: the handle
is never returned to the caller, the scope body and `__aexit__` never
run, and the acquired handle stays checked out — on the fresh pool of
the repository's own test, the awaited `pool.connect()` leaves
`size = 1` with the handle leaked instead of yielding it. -/
theorem C7_waiter_enter_name_error :
    (∀ (drv : Driver) (w : ConnectionWaiter),
       ConnectionWaiter.await_ drv w = ConnectionWaiter.aenter drv w)
    ∧ resolvesName "transaction_type" = false
    ∧ (∀ (drv : Driver) (w : ConnectionWaiter) (c : Connection) (p1 : ConnectionPool),
         acquire_connection drv w.pool = AcquireResult.conn c p1 →
         ConnectionWaiter.aenter drv w
           = WaiterEnter.raised (PyExc.nameError "transaction_type") c p1
         ∧ waiter_scope drv w
           = WaiterScope.enterRaised (PyExc.nameError "transaction_type") c p1)
    ∧ ConnectionWaiter.aenter goodDriver (ConnectionPool.init 4).connect
        = WaiterEnter.raised (PyExc.nameError "transaction_type")
            ⟨0, ["PRAGMA journal_mode=WAL", "PRAGMA busy_timeout=0"]⟩
            ⟨4, [], 1, false, 1⟩ := by
  have hn : resolvesName "transaction_type" = false := by decide
  refine ⟨fun drv w => rfl, hn, ?_, ?_⟩
  · intro drv w c p1 h
    constructor
    · simp [ConnectionWaiter.aenter, h, loadName, hn]
    · simp [waiter_scope, ConnectionWaiter.aenter, h, loadName, hn]
  · have hacq : acquire_connection goodDriver ((ConnectionPool.init 4).connect).pool
        = AcquireResult.conn
            ⟨0, ["PRAGMA journal_mode=WAL", "PRAGMA busy_timeout=0"]⟩
            ⟨4, [], 1, false, 1⟩ := by decide
    simp [ConnectionWaiter.aenter, hacq, loadName, hn]

theorem C7_waiter_enter_name_error_witness :
    acquire_connection goodDriver (ConnectionPool.connect wPoolIdle).pool
      = AcquireResult.conn wConn ⟨2, [], 2, false, 1⟩
    ∧ ConnectionWaiter.aenter goodDriver (ConnectionPool.connect wPoolIdle)
        = WaiterEnter.raised (PyExc.nameError "transaction_type") wConn
            ⟨2, [], 2, false, 1⟩
    ∧ waiter_scope goodDriver (ConnectionPool.connect wPoolIdle)
        = WaiterScope.enterRaised (PyExc.nameError "transaction_type") wConn
            ⟨2, [], 2, false, 1⟩ :=
  ⟨rfl,
   (C7_waiter_enter_name_error.2.2.1 goodDriver (ConnectionPool.connect wPoolIdle)
      wConn ⟨2, [], 2, false, 1⟩ rfl).1,
   (C7_waiter_enter_name_error.2.2.1 goodDriver (ConnectionPool.connect wPoolIdle)
      wConn ⟨2, [], 2, false, 1⟩ rfl).2⟩

/-- C8: releasing a handle that was obtained from this pool can never
hit the full-queue branch of `put_nowait`: in every reachable state, a
checked-out handle implies `available < maxsize`, so
`return_connection` succeeds and enqueues the handle at the back of
the idle queue without blocking. -/
theorem C8_release_never_full (maxsize : Nat) (s : Sys) (c : Connection)
    (hr : Reaches (Sys.init maxsize) s) (hc : c ∈ s.checkedOut) :
    s.pool.available < s.pool.maxsize
    ∧ return_connection s.pool c
        = Except.ok { s.pool with queue := s.pool.queue ++ [c] } := by
  obtain ⟨hcount, hmax, -, -, -, -⟩ := Reaches_inv hr
  have hco : 0 < s.checkedOut.length := List.length_pos.mpr (List.ne_nil_of_mem hc)
  have hlt : s.pool.queue.length < s.pool.maxsize := by omega
  exact ⟨hlt, return_connection_ok s.pool c hlt⟩

theorem C8_release_never_full_witness :
    wSys1.pool.available < wSys1.pool.maxsize
    ∧ return_connection wSys1.pool wConn
        = Except.ok { wSys1.pool with queue := wSys1.pool.queue ++ [wConn] } :=
  C8_release_never_full 2 wSys1 wConn reach_wSys1 (by simp [wSys1])
